import Mathlib

/-!
Shallow embedding of the ProcTap capture engine
(`src/proctap/core.py` and `src/proctap/__main__.py`) and proofs about it.

Python `bytes` values are modelled as `List Nat` (one entry per byte); the
delivery queue holds `bytes | None`, where `None` is the end-of-stream
sentinel, modelled by `QItem`.
-/

namespace ProcTap

/-- An item of the delivery queue `_async_queue : queue.Queue[bytes | None]`:
either a PCM byte buffer or the terminal sentinel (Python `None`). -/
inductive QItem where
  | data (b : List Nat)
  | sentinel
  deriving DecidableEq

/-- Model of Python `queue.Queue`: a FIFO with a `maxsize` field, where
`maxsize = 0` (in Python, `maxsize <= 0`) means the queue is unbounded. -/
structure PyQueue (α : Type) where
  maxsize : Nat
  items : List α
  deriving DecidableEq

/-- Python `queue.Queue.full()`: true iff `0 < maxsize <= qsize()`. -/
def PyQueue.full (q : PyQueue α) : Bool :=
  0 < q.maxsize && q.maxsize ≤ q.items.length

/-- A Python queue is bounded iff it was constructed with positive `maxsize`. -/
def PyQueue.bounded (q : PyQueue α) : Bool :=
  0 < q.maxsize

/-- Python `queue.Queue.put_nowait(x)`: `none` models the `queue.Full`
exception, raised exactly when the queue is bounded and at capacity. -/
def PyQueue.putNowait (q : PyQueue α) (x : α) : Option (PyQueue α) :=
  if q.full then none else some { q with items := q.items ++ [x] }

/-- The delivery queue as constructed in `ProcessAudioCapture.__init__`:
`queue.Queue()` with default `maxsize = 0`, i.e. unbounded and empty. -/
def initQueue : PyQueue QItem := { maxsize := 0, items := [] }

/-- Lines 221-225 of `core.py`: `try: self._async_queue.put_nowait(data)
except queue.Full: pass` — a failed non-blocking put silently discards the
NEW buffer and leaves the queue unchanged. -/
def enqueueData (q : PyQueue QItem) (b : List Nat) : PyQueue QItem :=
  match q.putNowait (QItem.data b) with
  | some q2 => q2
  | none => q

/-- Lines 228-231 of `core.py`: after the worker loop exits,
`try: self._async_queue.put_nowait(None) except queue.Full: pass`. -/
def sentinelStep (q : PyQueue QItem) : PyQueue QItem :=
  match q.putNowait QItem.sentinel with
  | some q2 => q2
  | none => q

/-- What the platform backend's `read()` produced in one worker iteration:
either a byte buffer (possibly empty) or a raised exception. -/
inductive ReadResult where
  | ok (b : List Nat)
  | err
  deriving DecidableEq

/-- Observable outcome of one iteration of the `_worker` loop body. -/
structure IterOutcome where
  queue : PyQueue QItem
  callbackInvoked : Bool
  exnPropagated : Bool
  loopContinues : Bool
  deriving DecidableEq

/-- One iteration of the body of the `while` loop in
`ProcessAudioCapture._worker` (lines 195-225 of `core.py`), given whether a
callback is registered, the delivery-queue state, the backend `read()`
result, and whether the user callback raises. A backend exception is caught,
logged and the loop continues; an empty buffer means sleep and continue;
otherwise the callback (if any) is invoked with exceptions caught and
logged, and then the buffer is enqueued with `put_nowait`. -/
def workerIter (hasCb : Bool) (q : PyQueue QItem) (r : ReadResult)
    (cbRaises : Bool) : IterOutcome :=
  match r with
  | ReadResult.err =>
      { queue := q, callbackInvoked := false, exnPropagated := false,
        loopContinues := true }
  | ReadResult.ok [] =>
      { queue := q, callbackInvoked := false, exnPropagated := false,
        loopContinues := true }
  | ReadResult.ok b =>
      let _ := cbRaises
      { queue := enqueueData q b, callbackInvoked := hasCb,
        exnPropagated := false, loopContinues := true }

/-- A complete run of `_worker`: the iterations executed before the stop
flag was observed (each given by the backend read result and whether the
callback raised), followed by the terminal sentinel enqueue. -/
def workerRun (hasCb : Bool) (inputs : List (ReadResult × Bool))
    (q : PyQueue QItem) : PyQueue QItem :=
  sentinelStep (inputs.foldl (fun acc i => (workerIter hasCb acc i.1 i.2).queue) q)

/-- Number of sentinels currently in the queue. -/
def sentinelCount (q : PyQueue QItem) : Nat :=
  q.items.count QItem.sentinel

/-!
Facade model: `ProcessAudioCapture` lifecycle and synchronous `read`.

The platform backend sources (`backends/base.py`, `backends/windows.py`,
`backends/linux.py`, `backends/macos.py`) are not present in the repository
snapshot, so the backend is modelled from the spec.
-/

/-- Modelled from the spec: the platform capture adapter (`AudioBackend`,
whose source `backends/base.py` is missing from the snapshot). Per the
adapter contract, `start() → ok` and `stop() → ok`; the only state the
facade claims depend on is whether the backend is capturing. -/
structure BackendState where
  running : Bool
  deriving DecidableEq

/-- Modelled from the spec: adapter `start()` begins capturing. -/
def backendStart (b : BackendState) : BackendState :=
  { b with running := true }

/-- Modelled from the spec: adapter `stop() → ok`, releases capture;
idempotent (a second stop leaves the stopped state unchanged). -/
def backendStop (b : BackendState) : BackendState :=
  { b with running := false }

/-- State of one `ProcessAudioCapture` session as seen by the facade:
the worker-thread handle (`some alive` models a thread object whose
`is_alive()` returns `alive`; `none` models `self._thread is None`), the
stop event, the delivery queue, the backend, and whether a callback is
registered. -/
structure Session where
  thread : Option Bool
  stopEvent : Bool
  queue : PyQueue QItem
  backend : BackendState
  onData : Bool
  deriving DecidableEq

namespace Session

/-- `ProcessAudioCapture.__init__` (lines 41-65 of `core.py`): no thread,
stop event clear, and a fresh `queue.Queue()` delivery queue. -/
def init (onData : Bool) : Session :=
  { thread := none, stopEvent := false, queue := initQueue,
    backend := { running := false }, onData := onData }

/-- `ProcessAudioCapture.start` (lines 69-84): if `self._thread` is not
`None` the call returns immediately; otherwise it starts the backend,
clears the stop event and spawns a live worker thread. -/
def start (s : Session) : Session :=
  if s.thread.isSome then s
  else
    { s with
      backend := backendStart s.backend
      stopEvent := false
      thread := some true }

/-- `ProcessAudioCapture.stop` (lines 86-96): set the stop event, join the
worker (dropping the handle), and stop the backend, swallowing any backend
error. -/
def stop (s : Session) : Session :=
  { s with
    stopEvent := true
    thread := none
    backend := backendStop s.backend }

/-- `ProcessAudioCapture.close` (lines 98-99): delegates to `stop`. -/
def close (s : Session) : Session :=
  s.stop

/-- `ProcessAudioCapture.is_running` (lines 110-113): the thread handle is
set and the thread is alive. -/
def isRunning (s : Session) : Bool :=
  match s.thread with
  | some alive => alive
  | none => false

end Session

/-- Result of `ProcessAudioCapture.read(timeout)` as the caller sees it
(lines 149-169 of `core.py`): a raised `RuntimeError` when the session is
not running, otherwise the dequeued item, or a timeout (the internal
`queue.Empty` is caught and `None` is returned). -/
inductive ReadOutcome where
  | notRunningError
  | timedOut
  | got (x : QItem)
  deriving DecidableEq

/-- `ProcessAudioCapture.read(timeout)`: raise unless `is_running`; block on
`queue.get(timeout)`, which pops the queue head if one arrives, and raises
`queue.Empty` (caught, yielding `None`) when the timeout elapses with the
queue empty. Returns the outcome and the resulting session state. -/
def Session.read (s : Session) : ReadOutcome × Session :=
  if s.isRunning then
    match s.queue.items with
    | [] => (ReadOutcome.timedOut, s)
    | x :: rest =>
        (ReadOutcome.got x, { s with queue := { s.queue with items := rest } })
  else (ReadOutcome.notRunningError, s)

/-- The Python value the caller of `read` receives: `Except` models a
raised exception; both a timeout and a dequeued sentinel surface as
`None` (`Option.none`). -/
def readValue : ReadOutcome → Except Unit (Option (List Nat))
  | ReadOutcome.notRunningError => Except.error ()
  | ReadOutcome.timedOut => Except.ok none
  | ReadOutcome.got QItem.sentinel => Except.ok none
  | ReadOutcome.got (QItem.data b) => Except.ok (some b)

/-!
Interleaving model of the worker thread against the caller's `stop()`.

`stop()` sets the stop event and then calls `self._thread.join(timeout=1.0)`,
which returns either because the worker has exited or because one second
elapsed with the worker still live; in both cases `stop` then drops the
handle, stops the backend and returns. The worker checks the stop event
only at the top of its loop, so its position in the loop body is the
program counter below.
-/

/-- Program counter of the `_worker` thread: at the top-of-loop stop-event
check, about to call `backend.read()`, holding data and about to invoke the
callback, about to `put_nowait` the data, or exited (after the sentinel
enqueue). -/
inductive WPc where
  | atCheck
  | atRead
  | atDeliver (b : List Nat)
  | atEnqueue (b : List Nat)
  | exited
  deriving DecidableEq

/-- Joint state of one session's worker thread and its caller: the stop
event, whether `stop()` has returned to the caller, the worker's program
counter, the delivery-queue contents (the queue is unbounded, so only the
item list matters), and how many times the registered callback has been
invoked. -/
structure CSys where
  stopEvent : Bool
  stopReturned : Bool
  workerPc : WPc
  queueItems : List QItem
  cbInvocations : Nat
  deriving DecidableEq

/-- Scheduler events: worker steps (top-of-loop check passing or exiting,
a backend read returning data or empty/error, the callback invocation, the
data enqueue) and caller steps (`stop()` setting the event, then `join`
returning on worker exit or on the 1-second timeout with the worker still
live). -/
inductive CLabel where
  | checkContinue
  | checkExit
  | readData (b : List Nat)
  | readEmptyOrError
  | invokeCb
  | enqueueBuf
  | stopCall
  | joinWorkerExited
  | joinTimedOut
  deriving DecidableEq

/-- One enabled transition of the interleaved system; `none` when the label
is not enabled in the given state. Mirrors `_worker` (lines 195-231 of
`core.py`) and `stop` (lines 86-96): the worker exits only via the
top-of-loop check, enqueues the sentinel on exit, and `join(timeout=1.0)`
can return (so `stop` returns) while the worker is anywhere in its loop. -/
def cstep (s : CSys) : CLabel → Option CSys
  | CLabel.checkContinue =>
      if s.workerPc = WPc.atCheck ∧ s.stopEvent = false then
        some { s with workerPc := WPc.atRead }
      else none
  | CLabel.checkExit =>
      if s.workerPc = WPc.atCheck ∧ s.stopEvent = true then
        some { s with
               workerPc := WPc.exited
               queueItems := s.queueItems ++ [QItem.sentinel] }
      else none
  | CLabel.readData b =>
      if s.workerPc = WPc.atRead ∧ b ≠ [] then
        some { s with workerPc := WPc.atDeliver b }
      else none
  | CLabel.readEmptyOrError =>
      if s.workerPc = WPc.atRead then
        some { s with workerPc := WPc.atCheck }
      else none
  | CLabel.invokeCb =>
      match s.workerPc with
      | WPc.atDeliver b =>
          some { s with
                 workerPc := WPc.atEnqueue b
                 cbInvocations := s.cbInvocations + 1 }
      | _ => none
  | CLabel.enqueueBuf =>
      match s.workerPc with
      | WPc.atEnqueue b =>
          some { s with
                 workerPc := WPc.atCheck
                 queueItems := s.queueItems ++ [QItem.data b] }
      | _ => none
  | CLabel.stopCall =>
      some { s with stopEvent := true }
  | CLabel.joinWorkerExited =>
      if s.stopEvent = true ∧ s.workerPc = WPc.exited then
        some { s with stopReturned := true }
      else none
  | CLabel.joinTimedOut =>
      if s.stopEvent = true ∧ s.workerPc ≠ WPc.exited then
        some { s with stopReturned := true }
      else none

/-- Run a schedule: apply the labels in order; `none` if any label is not
enabled where it occurs. -/
def crun (s : CSys) : List CLabel → Option CSys
  | [] => some s
  | l :: ls =>
      match cstep s l with
      | some s2 => crun s2 ls
      | none => none

/-- Initial state of a running session with a registered callback: worker
at the top of its loop, stop not yet requested, empty queue. -/
def cinit : CSys :=
  { stopEvent := false, stopReturned := false, workerPc := WPc.atCheck,
    queueItems := [], cbInvocations := 0 }

/-- Number of data buffers (non-sentinel items) in a queue-item list. -/
def dataCount (items : List QItem) : Nat :=
  (items.filter fun x => match x with | QItem.data _ => true | _ => false).length

/-- Claim C3 as stated: in every schedule from a running session, once
`stop()` has returned, the callback is never invoked again and no further
buffers enter the delivery queue. -/
def stopQuiescenceClaim : Prop :=
  ∀ (l1 : List CLabel) (s1 : CSys) (l2 : List CLabel) (s2 : CSys),
    crun cinit l1 = some s1 → s1.stopReturned = true →
    crun s1 l2 = some s2 →
    s2.cbInvocations = s1.cbInvocations ∧
    dataCount s2.queueItems = dataCount s1.queueItems

/-!
CLI model: `proctap.__main__` (`src/proctap/__main__.py`).
-/

/-- One entry of `psutil.process_iter(['pid', 'name'])`: the `info` fields
may be `None`, and touching the process may raise `NoSuchProcess` or
`AccessDenied` (modelled by `raisesAccess`). -/
structure ProcEntry where
  pid : Option Nat
  name : Option String
  raisesAccess : Bool
  deriving DecidableEq

/-- Errors `find_pid_by_name` can raise: `RuntimeError` when psutil is not
installed, `ValueError` when no process matches. -/
inductive FindError where
  | runtimeError
  | valueError
  deriving DecidableEq

/-- Python `str.lower()` on process names: character-wise lowercasing. -/
def pyLower (s : String) : String :=
  String.mk (s.data.map Char.toLower)

/-- The enumeration loop of `find_pid_by_name` (lines 42-58 of
`__main__.py`): skip entries whose access raises or whose name/pid is
`None`; return the first pid whose name equals the query case-insensitively
or equals the query plus `.exe` case-insensitively; otherwise fall through
to `ValueError`. -/
def findPidLoop (processName : String) : List ProcEntry → Except FindError Nat
  | [] => Except.error FindError.valueError
  | p :: rest =>
      if p.raisesAccess then findPidLoop processName rest
      else
        match p.name, p.pid with
        | some nm, some pid =>
            if pyLower nm = pyLower processName then Except.ok pid
            else if pyLower nm = pyLower processName ++ ".exe" then Except.ok pid
            else findPidLoop processName rest
        | _, _ => findPidLoop processName rest

/-- `find_pid_by_name(process_name)` (lines 35-58 of `__main__.py`). -/
def findPidByName (psutilAvailable : Bool) (procs : List ProcEntry)
    (processName : String) : Except FindError Nat :=
  if psutilAvailable then findPidLoop processName procs
  else Except.error FindError.runtimeError

/-- Why the CLI's run loop (lines 184-194 of `__main__.py`) ended: a
shutdown signal (SIGINT/SIGTERM handler set `stop_requested`), a broken
pipe on stdout (the `on_data` handler set `stop_requested`), the duration
limit, or a `KeyboardInterrupt`. -/
inductive EndReason where
  | signalStop
  | brokenPipe
  | durationReached
  | keyboardInterrupt
  deriving DecidableEq

/-- Outcome of the capture phase of `main` (lines 171-203): either an
exception while constructing/starting the capture (a capture failure), or
the run loop ended for the given reason. -/
inductive CaptureOutcome where
  | startError
  | runEnd (r : EndReason)
  deriving DecidableEq

/-- Result of one `sys.stdout.buffer.write` inside the CLI `on_data`
callback. -/
inductive WriteResult where
  | ok
  | brokenPipe
  | otherError
  deriving DecidableEq

/-- The CLI `on_data` callback (lines 155-168 of `__main__.py`), as a
function of the current `stop_requested` flag and the write result:
returns the new `stop_requested` flag and whether an exception escaped the
callback. `BrokenPipeError` is caught and sets `stop_requested`; any other
exception is caught and logged. -/
def onDataStep (stopRequested : Bool) (w : WriteResult) : Bool × Bool :=
  match w with
  | WriteResult.ok => (stopRequested, false)
  | WriteResult.brokenPipe => (true, false)
  | WriteResult.otherError => (stopRequested, false)

/-- Exit code of `main` after argument validation (lines 123-203 of
`__main__.py`): with `--name`, a failed pid resolution prints an error and
returns 1; otherwise the capture phase runs — a start failure returns 1,
and every normal end of the run loop (including a broken pipe) stops the
capture and returns 0. -/
def mainExitCode (nameArg : Option String) (pidArg : Nat)
    (psutilAvailable : Bool) (procs : List ProcEntry)
    (outcome : CaptureOutcome) : Nat :=
  match nameArg with
  | some nm =>
      match findPidByName psutilAvailable procs nm with
      | Except.error _ => 1
      | Except.ok _ =>
          match outcome with
          | CaptureOutcome.startError => 1
          | CaptureOutcome.runEnd _ => 0
  | none =>
      let _ := pidArg
      match outcome with
      | CaptureOutcome.startError => 1
      | CaptureOutcome.runEnd _ => 0

/-!
Helper lemmas about the queue and the worker loop.
-/

/-- A queue constructed with `maxsize = 0` is never full. -/
theorem full_eq_false_of_maxsize_zero (q : PyQueue α) (h : q.maxsize = 0) :
    q.full = false := by
  simp [PyQueue.full, h]

/-- The worker's data enqueue never changes the queue's capacity. -/
theorem enqueueData_maxsize (q : PyQueue QItem) (b : List Nat) :
    (enqueueData q b).maxsize = q.maxsize := by
  cases hf : q.full with
  | true => simp [enqueueData, PyQueue.putNowait, hf]
  | false => simp [enqueueData, PyQueue.putNowait, hf]

/-- The worker's data enqueue never adds or removes a sentinel. -/
theorem enqueueData_sentinelCount (q : PyQueue QItem) (b : List Nat) :
    sentinelCount (enqueueData q b) = sentinelCount q := by
  cases hf : q.full with
  | true => simp [enqueueData, PyQueue.putNowait, hf]
  | false =>
      simp [enqueueData, PyQueue.putNowait, hf, sentinelCount,
        List.count_append]

/-- On an unbounded queue, the worker's `put_nowait` always succeeds and
appends the buffer. -/
theorem enqueueData_of_maxsize_zero (q : PyQueue QItem) (b : List Nat)
    (h : q.maxsize = 0) :
    (enqueueData q b).items = q.items ++ [QItem.data b] := by
  unfold enqueueData PyQueue.putNowait
  rw [full_eq_false_of_maxsize_zero q h]
  rfl

/-- One worker iteration never changes the queue's capacity. -/
theorem workerIter_maxsize (hasCb : Bool) (q : PyQueue QItem)
    (r : ReadResult) (c : Bool) :
    (workerIter hasCb q r c).queue.maxsize = q.maxsize := by
  unfold workerIter
  match r with
  | ReadResult.err => rfl
  | ReadResult.ok [] => rfl
  | ReadResult.ok (d :: ds) => exact enqueueData_maxsize q (d :: ds)

/-- One worker iteration never enqueues a sentinel. -/
theorem workerIter_sentinelCount (hasCb : Bool) (q : PyQueue QItem)
    (r : ReadResult) (c : Bool) :
    sentinelCount (workerIter hasCb q r c).queue = sentinelCount q := by
  unfold workerIter
  match r with
  | ReadResult.err => rfl
  | ReadResult.ok [] => rfl
  | ReadResult.ok (d :: ds) => exact enqueueData_sentinelCount q (d :: ds)

/-- Folding the loop iterations preserves the queue's capacity. -/
theorem workerFold_maxsize (hasCb : Bool) (inputs : List (ReadResult × Bool))
    (q : PyQueue QItem) :
    (inputs.foldl (fun acc i => (workerIter hasCb acc i.1 i.2).queue) q).maxsize
      = q.maxsize := by
  induction inputs generalizing q with
  | nil => rfl
  | cons i is ih =>
      simp only [List.foldl_cons]
      rw [ih, workerIter_maxsize]

/-- Folding the loop iterations never enqueues a sentinel. -/
theorem workerFold_sentinelCount (hasCb : Bool)
    (inputs : List (ReadResult × Bool)) (q : PyQueue QItem) :
    sentinelCount
        (inputs.foldl (fun acc i => (workerIter hasCb acc i.1 i.2).queue) q)
      = sentinelCount q := by
  induction inputs generalizing q with
  | nil => rfl
  | cons i is ih =>
      simp only [List.foldl_cons]
      rw [ih, workerIter_sentinelCount]

/-- On an unbounded queue, the exit-time sentinel put always succeeds. -/
theorem sentinelStep_of_maxsize_zero (q : PyQueue QItem) (h : q.maxsize = 0) :
    (sentinelStep q).items = q.items ++ [QItem.sentinel] := by
  unfold sentinelStep PyQueue.putNowait
  rw [full_eq_false_of_maxsize_zero q h]
  rfl

/-!
Claim theorems.
-/

/-- C1, counterexample. The claim says the delivery queue of a capture
session is bounded with a configurable capacity defaulting to at least 256,
and that overflow discards the oldest buffer, never the new one. In the
code the queue is `queue.Queue()` with `maxsize = 0`, i.e. unbounded
(`__init__` takes no capacity parameter), and the code's `queue.Full`
handler keeps the queue unchanged, i.e. discards the NEW buffer: on a full
bounded queue holding one buffer, enqueueing another leaves that oldest
buffer in place and drops the incoming one. -/
theorem c1_counterexample :
    (Session.init true).queue.bounded = false ∧
    (Session.init true).queue.maxsize = 0 ∧
    enqueueData { maxsize := 1, items := [QItem.data [7]] } [9]
      = { maxsize := 1, items := [QItem.data [7]] } := by
  refine ⟨rfl, rfl, ?_⟩
  rfl

/-- C1, amended. The delivery queue is created unbounded (`queue.Queue()`
with `maxsize = 0`, no capacity parameter); the worker enqueues with a
non-blocking `put_nowait`, which on the unbounded queue always succeeds and
appends the buffer, so the capture worker never blocks and no queued buffer
is ever discarded; in the code's overflow handler — unreachable for the
unbounded queue — the new buffer would be discarded and the queue left
unchanged, not the oldest buffer dropped. -/
theorem c1_amended :
    (∀ cb : Bool, (Session.init cb).queue.maxsize = 0 ∧
      (Session.init cb).queue.bounded = false) ∧
    (∀ (q : PyQueue QItem) (b : List Nat), q.maxsize = 0 →
      (enqueueData q b).items = q.items ++ [QItem.data b]) ∧
    (∀ (q : PyQueue QItem) (b : List Nat), q.full = true →
      enqueueData q b = q) := by
  refine ⟨fun cb => ⟨rfl, rfl⟩, fun q b h => enqueueData_of_maxsize_zero q b h,
    fun q b h => ?_⟩
  simp [enqueueData, PyQueue.putNowait, h]

/-- C1, witness for the amended theorem at concrete inputs. -/
theorem c1_amended_witness :
    (enqueueData { maxsize := 0, items := [] } [1]).items = [QItem.data [1]] ∧
    enqueueData { maxsize := 1, items := [QItem.sentinel] } [2]
      = { maxsize := 1, items := [QItem.sentinel] } := by
  constructor
  · have h := c1_amended.2.1 { maxsize := 0, items := [] } [1] rfl
    simpa using h
  · exact c1_amended.2.2 { maxsize := 1, items := [QItem.sentinel] } [2] (by decide)

/-- C2. For every run of the capture worker — any sequence of loop
iterations followed by the exit-time sentinel put — exactly one terminal
sentinel is enqueued, and it reaches the delivery queue: the session's
queue is unbounded (`maxsize = 0`), so the exit-time `put_nowait` never
hits `queue.Full` (the overflow branch is unreachable) and the sentinel is
always appended. -/
theorem c2_sentinel_exactly_once (hasCb : Bool)
    (inputs : List (ReadResult × Bool)) (q : PyQueue QItem)
    (h : q.maxsize = 0) :
    sentinelCount (workerRun hasCb inputs q) = sentinelCount q + 1 ∧
    QItem.sentinel ∈ (workerRun hasCb inputs q).items := by
  have hm := workerFold_maxsize hasCb inputs q
  have hs := workerFold_sentinelCount hasCb inputs q
  have hstep := sentinelStep_of_maxsize_zero
    (inputs.foldl (fun acc i => (workerIter hasCb acc i.1 i.2).queue) q)
    (by rw [hm]; exact h)
  have hcount : sentinelCount (workerRun hasCb inputs q)
      = sentinelCount
          (inputs.foldl (fun acc i => (workerIter hasCb acc i.1 i.2).queue) q)
        + 1 := by
    unfold workerRun sentinelCount
    rw [hstep]
    simp [List.count_append]
  constructor
  · rw [hcount, hs]
  · unfold workerRun
    rw [hstep]
    simp

/-- C2, witness: a concrete run (one delivered buffer) starting from the
freshly constructed queue ends with exactly one sentinel in the queue. -/
theorem c2_sentinel_witness :
    sentinelCount (workerRun true [(ReadResult.ok [1], false)] initQueue)
        = sentinelCount initQueue + 1 ∧
    QItem.sentinel ∈ (workerRun true [(ReadResult.ok [1], false)] initQueue).items :=
  c2_sentinel_exactly_once true [(ReadResult.ok [1], false)] initQueue rfl

/-- C6. In the worker loop, a backend `read()` error is caught: the
iteration invokes no callback, leaves the queue unchanged, propagates no
exception, and the loop continues. A callback exception is caught as well:
the iteration still enqueues the buffer, propagates nothing, and the loop
continues with the next iteration. -/
theorem c6_worker_swallows_errors (hasCb cbRaises : Bool) (q : PyQueue QItem)
    (d : Nat) (ds : List Nat) :
    workerIter hasCb q ReadResult.err cbRaises
      = { queue := q, callbackInvoked := false, exnPropagated := false,
          loopContinues := true } ∧
    (workerIter true q (ReadResult.ok (d :: ds)) true).exnPropagated = false ∧
    (workerIter true q (ReadResult.ok (d :: ds)) true).loopContinues = true ∧
    (workerIter true q (ReadResult.ok (d :: ds)) true).callbackInvoked = true ∧
    (workerIter true q (ReadResult.ok (d :: ds)) true).queue
      = enqueueData q (d :: ds) := by
  refine ⟨rfl, rfl, rfl, rfl, rfl⟩

/-- C3, counterexample. The claim says that once `stop()` has returned the
callback is never invoked again and no further buffers enter the delivery
queue. But `stop()` joins the worker with `timeout=1.0` and returns
regardless of whether the worker exited. In the schedule below the worker
is blocked inside `backend.read()` when the join times out (`stop()`
returns, the handle is dropped); the read then completes with a buffer and
the detached worker — which re-checks the stop event only at the top of its
loop — invokes the callback and enqueues the buffer after `stop()` has
already returned. -/
theorem c3_counterexample : ¬ stopQuiescenceClaim := by
  intro h
  have h2 := h
    [CLabel.checkContinue, CLabel.stopCall, CLabel.joinTimedOut]
    { stopEvent := true, stopReturned := true,
      workerPc := WPc.atRead, queueItems := [], cbInvocations := 0 }
    [CLabel.readData [1], CLabel.invokeCb, CLabel.enqueueBuf]
    { stopEvent := true, stopReturned := true, workerPc := WPc.atCheck,
      queueItems := [QItem.data [1]], cbInvocations := 1 }
    (by decide) (by decide) (by decide)
  exact absurd h2.1 (by decide)

/-- C3, amended. Once `stop()` has returned AND the worker thread had
already exited its loop (the join completed rather than timing out), the
callback is never invoked again and no further items enter the delivery
queue: from any state whose worker has exited, every schedule leaves the
callback-invocation count and the queue contents unchanged. If the
1-second join times out, `stop()` returns while the worker is still live
and the detached worker may still invoke the callback and enqueue buffers
afterwards. -/
theorem c3_amended (s1 : CSys) (hpc : s1.workerPc = WPc.exited)
    (hret : s1.stopReturned = true) (l2 : List CLabel) (s2 : CSys)
    (hrun : crun s1 l2 = some s2) :
    s2.cbInvocations = s1.cbInvocations ∧ s2.queueItems = s1.queueItems := by
  induction l2 generalizing s1 with
  | nil =>
      cases hrun
      exact ⟨rfl, rfl⟩
  | cons l ls ih =>
      unfold crun at hrun
      cases hstep : cstep s1 l with
      | none => rw [hstep] at hrun; cases hrun
      | some smid =>
          rw [hstep] at hrun
          have hmid : smid.workerPc = WPc.exited ∧
              smid.stopReturned = true ∧
              smid.cbInvocations = s1.cbInvocations ∧
              smid.queueItems = s1.queueItems := by
            cases l with
            | checkContinue => simp [cstep, hpc] at hstep
            | checkExit => simp [cstep, hpc] at hstep
            | readData b => simp [cstep, hpc] at hstep
            | readEmptyOrError => simp [cstep, hpc] at hstep
            | invokeCb => simp [cstep, hpc] at hstep
            | enqueueBuf => simp [cstep, hpc] at hstep
            | stopCall =>
                simp only [cstep, Option.some.injEq] at hstep
                subst hstep
                exact ⟨hpc, hret, rfl, rfl⟩
            | joinWorkerExited =>
                simp only [cstep] at hstep
                split at hstep
                · cases hstep
                  exact ⟨hpc, rfl, rfl, rfl⟩
                · cases hstep
            | joinTimedOut =>
                simp only [cstep] at hstep
                split at hstep
                · rename_i hcond
                  exact absurd hpc hcond.2
                · cases hstep
          have hres := ih smid hmid.1 hmid.2.1 hrun
          exact ⟨hres.1.trans hmid.2.2.1, hres.2.trans hmid.2.2.2⟩

/-- A concrete state whose worker has exited its loop, used to witness the
amended C3 theorem. -/
def exitedState : CSys :=
  { stopEvent := true, stopReturned := true, workerPc := WPc.exited,
    queueItems := [QItem.sentinel], cbInvocations := 2 }

/-- C3, witness for the amended theorem: a concrete post-exit state and a
concrete schedule (a redundant second `stop()` call) leave the callback
count and queue unchanged. -/
theorem c3_amended_witness :
    exitedState.workerPc = WPc.exited ∧
    crun exitedState [CLabel.stopCall] = some exitedState ∧
    exitedState.cbInvocations = exitedState.cbInvocations ∧
    exitedState.queueItems = exitedState.queueItems := by
  refine ⟨rfl, by decide, ?_⟩
  exact c3_amended exitedState (by decide) (by decide) [CLabel.stopCall]
    exitedState (by decide)

/-- C4. Lifecycle idempotence: `start()` on a session whose worker thread
exists (in particular a running one) returns immediately without changing
any state, and a second consecutive `stop()` (or `close()`, which delegates
to `stop`) produces exactly the state of the first — the stop event is
already set, the thread handle is already dropped, and the (spec-modelled)
backend stop is idempotent. -/
theorem c4_lifecycle_idempotent (s : Session) :
    (s.isRunning = true → s.start = s) ∧
    s.stop.stop = s.stop ∧
    s.close.close = s.close := by
  refine ⟨fun h => ?_, rfl, rfl⟩
  unfold Session.start
  cases ht : s.thread with
  | some alive => simp [ht]
  | none => simp [Session.isRunning, ht] at h

/-- C4, witness at a concrete running session. -/
theorem c4_witness :
    ({ thread := some true, stopEvent := false, queue := initQueue,
       backend := { running := true }, onData := false } : Session).start
      = { thread := some true, stopEvent := false, queue := initQueue,
          backend := { running := true }, onData := false } ∧
    ({ thread := some true, stopEvent := false, queue := initQueue,
       backend := { running := true }, onData := false } : Session).stop.stop
      = ({ thread := some true, stopEvent := false, queue := initQueue,
           backend := { running := true }, onData := false } : Session).stop := by
  have h := c4_lifecycle_idempotent
    { thread := some true, stopEvent := false, queue := initQueue,
      backend := { running := true }, onData := false }
  exact ⟨h.1 (by decide), h.2.1⟩

/-- C5. `read(timeout)` raises a `RuntimeError` (lifecycle violation) when
the session is not running; when running it returns the next queued buffer
if one is available, and returns `None` when the timeout elapses with the
queue empty. -/
theorem c5_read_contract (s : Session) :
    (s.isRunning = false →
      (s.read).1 = ReadOutcome.notRunningError ∧
      readValue (s.read).1 = Except.error ()) ∧
    (s.isRunning = true → ∀ (b : List Nat) (rest : List QItem),
      s.queue.items = QItem.data b :: rest →
      (s.read).1 = ReadOutcome.got (QItem.data b) ∧
      readValue (s.read).1 = Except.ok (some b)) ∧
    (s.isRunning = true → s.queue.items = [] →
      (s.read).1 = ReadOutcome.timedOut ∧
      readValue (s.read).1 = Except.ok none) := by
  refine ⟨fun h => ?_, fun h b rest hq => ?_, fun h hq => ?_⟩
  · simp [Session.read, h, readValue]
  · simp [Session.read, h, hq, readValue]
  · simp [Session.read, h, hq, readValue]

/-- C5, witness at concrete sessions: a fresh (never started) session, a
running session with one queued buffer, and a running session with an
empty queue. -/
theorem c5_witness :
    ((Session.init false).read).1 = ReadOutcome.notRunningError ∧
    (({ thread := some true, stopEvent := false,
        queue := { maxsize := 0, items := [QItem.data [5]] },
        backend := { running := true }, onData := false } : Session).read).1
      = ReadOutcome.got (QItem.data [5]) ∧
    (({ thread := some true, stopEvent := false, queue := initQueue,
        backend := { running := true }, onData := false } : Session).read).1
      = ReadOutcome.timedOut := by
  refine ⟨((c5_read_contract (Session.init false)).1 (by decide)).1, ?_, ?_⟩
  · exact (((c5_read_contract _).2.1 (by decide)) [5] [] (by decide)).1
  · exact (((c5_read_contract _).2.2 (by decide)) (by decide)).1

/-- C7. In the CLI, `BrokenPipeError` inside the stdout-writing `on_data`
callback is caught and merely sets `stop_requested` (no exception escapes),
so the run loop ends, capture is stopped, and `main` returns exit code 0 —
the same graceful path as any normal end of the run loop. A failure while
constructing or starting the capture returns 1, and a failed `--name`
resolution (here: an empty process list, or psutil missing) returns 1. -/
theorem c7_broken_pipe_is_graceful (stopReq : Bool) (pid : Nat) (av : Bool)
    (procs : List ProcEntry) (nm : String) (out : CaptureOutcome) :
    onDataStep stopReq WriteResult.brokenPipe = (true, false) ∧
    mainExitCode none pid av procs (CaptureOutcome.runEnd EndReason.brokenPipe)
      = 0 ∧
    mainExitCode none pid av procs CaptureOutcome.startError = 1 ∧
    mainExitCode (some nm) pid av [] out = 1 := by
  refine ⟨rfl, rfl, rfl, ?_⟩
  cases av with
  | true => rfl
  | false => rfl

/-- C8, counterexample. The claim says a query given WITH `.exe` matches a
process listed WITHOUT it. In the code (`find_pid_by_name`), only the query
with `.exe` appended is compared against the process name — the query's own
`.exe` suffix is never stripped — so `"VRChat.exe"` fails to resolve
against a process named `"vrchat"` and the resolution raises `ValueError`
instead of returning its pid. -/
theorem c8_counterexample :
    findPidByName true
        [{ pid := some 42, name := some "vrchat", raisesAccess := false }]
        "VRChat.exe"
      = Except.error FindError.valueError ∧
    findPidByName true
        [{ pid := some 42, name := some "vrchat", raisesAccess := false }]
        "VRChat.exe"
      ≠ Except.ok 42 := by
  have he : findPidByName true
      [{ pid := some 42, name := some "vrchat", raisesAccess := false }]
      "VRChat.exe" = Except.error FindError.valueError := rfl
  refine ⟨he, ?_⟩
  rw [he]
  simp

/-- Appending `".exe"` to a string never yields the same string. -/
theorem append_exe_ne (s : String) : s ++ ".exe" ≠ s := by
  intro h
  have hd : (s ++ ".exe").data = s.data := congrArg String.data h
  have hd2 : s.data ++ ".exe".data = s.data := by
    rw [String.data_append] at hd
    exact hd
  have := congrArg List.length hd2
  simp at this

/-- C8, amended. Resolving `--name S` selects the first enumerated process
whose name equals S case-insensitively, or equals S followed by `.exe`
case-insensitively: S given without `.exe` matches a process listed with
it, but not conversely (the query's own `.exe` is never stripped). The
first matching process wins, an empty enumeration fails with `ValueError`,
and a missing psutil fails with `RuntimeError`. -/
theorem c8_amended (procs : List ProcEntry) (qn pn : String)
    (pid pid2 : Nat) :
    (pyLower pn = pyLower qn →
      findPidByName true
          [{ pid := some pid, name := some pn, raisesAccess := false }] qn
        = Except.ok pid) ∧
    (pyLower pn = pyLower qn ++ ".exe" →
      findPidByName true
          [{ pid := some pid, name := some pn, raisesAccess := false }] qn
        = Except.ok pid) ∧
    (pyLower pn = pyLower qn →
      findPidByName true
          [{ pid := some pid, name := some pn, raisesAccess := false },
           { pid := some pid2, name := some pn, raisesAccess := false }] qn
        = Except.ok pid) ∧
    findPidByName true [] qn = Except.error FindError.valueError ∧
    findPidByName false procs qn = Except.error FindError.runtimeError := by
  refine ⟨fun h => ?_, fun h => ?_, fun h => ?_, rfl, rfl⟩
  · simp [findPidByName, findPidLoop, h]
  · have hne : ¬ pyLower pn = pyLower qn := by
      rw [h]
      exact append_exe_ne (pyLower qn)
    simp [findPidByName, findPidLoop, h, hne]
  · simp [findPidByName, findPidLoop, h]

/-- C8, witness for the amended theorem at concrete names: `"PROCTAP"`
matches the query `"proctap"` (case-insensitive), `"proctap.exe"` matches
the query `"ProcTap"` (suffix added to the query), and the first of two
matching processes wins. -/
theorem c8_amended_witness :
    findPidByName true
        [{ pid := some 7, name := some "PROCTAP", raisesAccess := false }]
        "proctap"
      = Except.ok 7 ∧
    findPidByName true
        [{ pid := some 8, name := some "proctap.exe", raisesAccess := false }]
        "ProcTap"
      = Except.ok 8 ∧
    findPidByName true
        [{ pid := some 9, name := some "proctap", raisesAccess := false },
         { pid := some 10, name := some "proctap", raisesAccess := false }]
        "proctap"
      = Except.ok 9 := by
  refine ⟨(c8_amended [] "proctap" "PROCTAP" 7 0).1 (by decide),
    (c8_amended [] "ProcTap" "proctap.exe" 8 0).2.1 (by decide),
    (c8_amended [] "proctap" "proctap" 9 10).2.2.1 (by decide)⟩

/-- C9. A `read()` that dequeues the terminal sentinel returns `None` — the
very value a timeout returns, so the caller cannot tell the two apart — and
removes the sentinel from the queue for good (the queue afterwards is the
remaining tail, holding one sentinel fewer), so that sentinel can no longer
signal end-of-stream to `iter_chunks`. -/
theorem c9_read_consumes_sentinel (s : Session) (rest : List QItem)
    (hrun : s.isRunning = true)
    (hq : s.queue.items = QItem.sentinel :: rest) :
    readValue (s.read).1 = Except.ok none ∧
    readValue (s.read).1 = readValue ReadOutcome.timedOut ∧
    ((s.read).2).queue.items = rest ∧
    sentinelCount ((s.read).2).queue + 1 = sentinelCount s.queue := by
  refine ⟨?_, ?_, ?_, ?_⟩ <;>
    simp [Session.read, hrun, hq, readValue, sentinelCount, List.count_cons]

/-- A concrete running session whose queue head is the sentinel, used to
witness the C9 theorem. -/
def sentinelHeadSession : Session :=
  { thread := some true, stopEvent := true,
    queue := { maxsize := 0, items := [QItem.sentinel] },
    backend := { running := false }, onData := false }

/-- C9, witness at a concrete running session whose queue head is the
sentinel. -/
theorem c9_witness :
    readValue ((sentinelHeadSession.read).1) = Except.ok none ∧
    ((sentinelHeadSession.read).2).queue.items = [] := by
  have h := c9_read_consumes_sentinel sentinelHeadSession []
    (by decide) (by decide)
  exact ⟨h.1, h.2.2.1⟩

/-- C10. The delivery queue is created once in `__init__` and neither
`stop()` nor a subsequent `start()` clears or replaces it: both preserve
the queue field exactly. Consequently, when a previous run left a buffer
and the terminal sentinel queued, a consumer of the new run first reads the
stale buffer and then an immediate end-of-stream `None`. -/
theorem c10_queue_survives_restart (s : Session) (b : List Nat) :
    s.stop.queue = s.queue ∧
    s.start.queue = s.queue ∧
    s.stop.start.queue = s.queue ∧
    (s.queue.items = [QItem.data b, QItem.sentinel] →
      readValue ((s.stop.start.read).1) = Except.ok (some b) ∧
      readValue ((((s.stop.start.read).2).read).1) = Except.ok none) := by
  have hstart : ∀ t : Session, t.start.queue = t.queue := by
    intro t
    unfold Session.start
    split
    · rfl
    · rfl
  refine ⟨rfl, hstart s, hstart s.stop, fun hq => ?_⟩
  have hform : s.stop.start
      = { thread := some true, stopEvent := false, queue := s.queue,
          backend := { running := true }, onData := s.onData } := rfl
  rw [hform]
  constructor
  · simp [Session.read, Session.isRunning, hq, readValue]
  · simp [Session.read, Session.isRunning, hq, readValue]

/-- A concrete stopped session that left one undelivered buffer and the
terminal sentinel in its queue, used to witness the C10 theorem. -/
def staleSession : Session :=
  { thread := none, stopEvent := true,
    queue := { maxsize := 0, items := [QItem.data [3], QItem.sentinel] },
    backend := { running := false }, onData := true }

/-- C10, witness: after restarting the stale session, the first read
returns the stale buffer and the second read returns an immediate
end-of-stream `None`. -/
theorem c10_witness :
    readValue ((staleSession.stop.start.read).1) = Except.ok (some [3]) ∧
    readValue ((((staleSession.stop.start.read).2).read).1) = Except.ok none := by
  exact (c10_queue_survives_restart staleSession [3]).2.2.2 (by decide)

end ProcTap
